import Mathlib

/-!
Shallow embedding of the NutriPatrol / SearchALicious typed API client.

The embedded code:
  - the request dispatcher `SearchALicious.fetchApi` and the typed
    accessors `SearchALicious.getFlags` and `SearchALicious.getApiHealth`
    from src/unnamed/part_000 (lines 60-158);
  - the error types `ApiError` and `SearchALiciousError` from
    src/src/error.ts.

Modelling decisions:
  - Runtime values (parsed response bodies, returned results) are a `Json`
    inductive; JavaScript truthiness of a parsed JSON value is `Json.falsy`.
  - The injected transport is a `RawClient`: the four verb-bound methods of
    the generated openapi-fetch client. A call resolves to `Except.ok` with
    a `FetchResult` (the raw response plus the error body openapi-fetch
    parsed for non-ok responses) or to `Except.error` for a thrown or
    rejected call.
  - `response.json()` is the `body : Option Json` field of the response:
    `none` models a body whose JSON parse throws, `some v` a successful
    parse to the value `v`.
  - `Response.ok` is derived from the status as in the fetch standard:
    status in the 2xx range.
  - A JavaScript object property set to `undefined` is observationally the
    same as an absent property for the value shapes compared here, so an
    optional field that is undefined is modelled as absent.
-/

/-- A JSON runtime value. -/
inductive Json where
  | null
  | bool (b : Bool)
  | num (n : Int)
  | str (s : String)
  | arr (elems : List Json)
  | obj (fields : List (String × Json))

/-- JavaScript truthiness test on a parsed JSON value, as used by the
dispatcher condition checking the parsed data: null, false, 0 and the
empty string are falsy; arrays and objects are always truthy. -/
def Json.falsy : Json → Bool
  | .null => true
  | .bool b => !b
  | .num n => n == 0
  | .str s => s == ""
  | .arr _ => false
  | .obj _ => false

/-- Property read on a value: `none` models JavaScript `undefined`
(missing property, or property access on a non-object). -/
def Json.getField : Json → String → Option Json
  | .obj fields, k => (fields.find? (fun f => f.1 == k)).map (fun f => f.2)
  | _, _ => none

/-- Key-presence predicate on a value, used in theorem statements: true
exactly when the value is an object with a field of that key. This is not
the model of the membership operator the accessors run; that operator is
`jsIn` below, which throws on non-objects. On objects the two agree. -/
def Json.hasKey (j : Json) (k : String) : Bool :=
  match j with
  | .obj fields => fields.any (fun f => f.1 == k)
  | _ => false

/-- Whether a JSON value is an object in the JavaScript sense: objects and
arrays are; null, booleans, numbers and strings are primitives. -/
def Json.isObjectLike : Json → Bool
  | .arr _ => true
  | .obj _ => true
  | _ => false

/-- The membership operator the accessors run on the dispatcher result:
on an object it tests key presence, on an array the named (non-index)
property is absent, and on a primitive it throws a TypeError, which the
accessors do not catch. -/
def jsIn (k : String) (j : Json) : Except String Bool :=
  match j with
  | .obj fields => Except.ok (fields.any (fun f => f.1 == k))
  | .arr _ => Except.ok false
  | _ => Except.error "TypeError"

/-- One entry of the 422 validation error body, from `ApiError` in
src/src/error.ts. -/
structure DetailEntry where
  msg : String
  type : String
  loc : List String

/-- `ApiError` from src/src/error.ts: the parsed body of a 422 response,
with an optional `detail` array. -/
structure ApiError where
  detail : Option (List DetailEntry)

/-- The HTTP response as seen by the dispatcher: the status code and the
outcome of parsing the body as JSON (`none` when the parse throws). -/
structure HttpResponse where
  status : Nat
  body : Option Json

/-- `Response.ok` per the fetch standard: the status is in the 2xx range. -/
def HttpResponse.ok (r : HttpResponse) : Bool :=
  decide (200 ≤ r.status ∧ r.status < 300)

/-- What an awaited openapi-fetch method call resolves to: the raw
response, and the error body that openapi-fetch parsed for a non-ok
response (read by the 422 branch of the dispatcher). -/
structure FetchResult where
  response : HttpResponse
  error : Option ApiError

/-- The injected transport: the four verb-bound methods of the generated
client. `Except.error` models a call that throws or rejects. -/
structure RawClient where
  GET : String → Json → Except String FetchResult
  POST : String → Json → Except String FetchResult
  PUT : String → Json → Except String FetchResult
  DELETE : String → Json → Except String FetchResult

/-- The HTTP verbs the dispatcher accepts. -/
inductive HttpMethod where
  | GET
  | POST
  | PUT
  | DELETE

/-- The `methods` lookup table of the dispatcher, keyed by verb. -/
def methodsOf (raw : RawClient) : HttpMethod → String → Json → Except String FetchResult
  | .GET => raw.GET
  | .POST => raw.POST
  | .PUT => raw.PUT
  | .DELETE => raw.DELETE

/-- The normalized error objects the dispatcher builds: an outer object
with the single key `error` wrapping `statusCode`, `message` and, when
supplied, `details`. This is the `SearchALiciousError` shape of
src/src/error.ts (with `details` optional). -/
def errJson (statusCode : Int) (message : String) (details : Option Json) : Json :=
  Json.obj [("error", Json.obj
    ([("statusCode", Json.num statusCode), ("message", Json.str message)] ++
      (match details with
       | some d => [("details", d)]
       | none => [])))]

/-- The `details` value of the 422 branch: map each entry of the optional
`detail` array of the error body to its `msg` field; `none` when either
optional link is missing. -/
def validationDetails (e : Option ApiError) : Option Json :=
  match e with
  | some a =>
    match a.detail with
    | some ds => some (Json.arr (ds.map (fun d => Json.str d.msg)))
    | none => none
  | none => none

/-- The client object: only the generated raw client is observable by the
operations under verification. -/
structure SearchALicious where
  raw : RawClient

/-- The defaulted `options` argument of the dispatcher: the empty object. -/
def emptyOptions : Json := Json.obj []

/-- The request dispatcher `fetchApi` (src/unnamed/part_000, lines 60-118):
select the transport method by verb, await the call inside a try block,
normalize non-ok responses (422 validation errors and other upstream
errors), reject falsy parsed success bodies as malformed, return truthy
parsed bodies unchanged, and collapse anything thrown (the transport call
itself, or the body parse) to a catch-all 500 error. -/
def SearchALicious.fetchApi (c : SearchALicious) (method : HttpMethod)
    (path : String) (options : Json) : Json :=
  match methodsOf c.raw method path options with
  | Except.error _ => errJson 500 "An unexpected error occurred" none
  | Except.ok res =>
    if !res.response.ok then
      if res.response.status == 422 then
        errJson 422 "Validation error" (validationDetails res.error)
      else
        match res.response.body with
        | none => errJson 500 "An unexpected error occurred" none
        | some errorDetails =>
          errJson (res.response.status : Int)
            "Error while requesting Nutripatrol API" (some errorDetails)
    else
      match res.response.body with
      | none => errJson 500 "An unexpected error occurred" none
      | some data =>
        if data.falsy then errJson 500 "Malformed API response" none
        else data

/-- The accessor `getFlags` (src/unnamed/part_000, lines 131-137):
dispatch GET /api/v1/flags, run the membership test on the result; pass a
result carrying an `error` key through unchanged, otherwise read its
`flags` field (`some none` models returning the undefined value produced
by reading a missing property). The membership test throws a TypeError
when the dispatcher result is a truthy primitive body, and the accessor
has no try block, so `Except.error` models that exception propagating to
the caller. -/
def SearchALicious.getFlags (c : SearchALicious) : Except String (Option Json) :=
  let data := c.fetchApi HttpMethod.GET "/api/v1/flags" emptyOptions
  match jsIn "error" data with
  | Except.error e => Except.error e
  | Except.ok true => Except.ok (some data)
  | Except.ok false => Except.ok (data.getField "flags")

/-- The accessor `getApiHealth` (src/unnamed/part_000, lines 149-158):
dispatch GET /health, run the membership test on the result; both
branches of the narrowing conditional return the dispatcher result
unchanged. As in `getFlags`, the membership test throws a TypeError on a
truthy primitive body and the exception propagates (`Except.error`). -/
def SearchALicious.getApiHealth (c : SearchALicious) : Except String Json :=
  let data := c.fetchApi HttpMethod.GET "/health" emptyOptions
  match jsIn "error" data with
  | Except.error e => Except.error e
  | Except.ok true => Except.ok data
  | Except.ok false => Except.ok data

/-- Recognizer for the declared normalized error shape: an object whose
`error` property carries a numeric `statusCode` and a string `message`. -/
def isNormalizedError (j : Json) : Bool :=
  match j.getField "error" with
  | some e =>
    (match e.getField "statusCode" with
     | some (Json.num _) => true
     | _ => false)
    &&
    (match e.getField "message" with
     | some (Json.str _) => true
     | _ => false)
  | _ => false

/-- Every error object the dispatcher builds satisfies the normalized
error shape. -/
theorem isNormalizedError_errJson (sc : Int) (msg : String) (d : Option Json) :
    isNormalizedError (errJson sc msg d) = true := by
  cases d <;> rfl

/-- Every error object the dispatcher builds carries the `error` key. -/
theorem hasKey_errJson (sc : Int) (msg : String) (d : Option Json) :
    (errJson sc msg d).hasKey "error" = true := by
  cases d <;> rfl

/-- On an object or array the membership operator returns the key
presence without throwing. -/
theorem jsIn_eq_hasKey (k : String) (j : Json) (h : j.isObjectLike = true) :
    jsIn k j = Except.ok (j.hasKey k) := by
  cases j <;> simp_all [Json.isObjectLike, jsIn, Json.hasKey]

/-- On a primitive the membership operator throws a TypeError. -/
theorem jsIn_eq_throw (k : String) (j : Json) (h : j.isObjectLike = false) :
    jsIn k j = Except.error "TypeError" := by
  cases j <;> simp_all [Json.isObjectLike, jsIn]

/-- A value carrying a key is an object. -/
theorem hasKey_isObjectLike (j : Json) (k : String) (h : j.hasKey k = true) :
    j.isObjectLike = true := by
  cases j <;> simp_all [Json.hasKey, Json.isObjectLike]

/-- getFlags passes a dispatcher result carrying an `error` key through
unchanged, without throwing. -/
theorem getFlags_pass (c : SearchALicious)
    (h : (c.fetchApi HttpMethod.GET "/api/v1/flags" emptyOptions).hasKey
      "error" = true) :
    c.getFlags =
      Except.ok (some (c.fetchApi HttpMethod.GET "/api/v1/flags" emptyOptions)) := by
  have hobj := hasKey_isObjectLike _ "error" h
  simp [SearchALicious.getFlags, jsIn_eq_hasKey "error" _ hobj, h]

/-- On an object or array dispatcher result without an `error` key,
getFlags reads the `flags` field, without throwing. -/
theorem getFlags_extract (c : SearchALicious)
    (hobj : (c.fetchApi HttpMethod.GET "/api/v1/flags" emptyOptions).isObjectLike
      = true)
    (h : (c.fetchApi HttpMethod.GET "/api/v1/flags" emptyOptions).hasKey
      "error" = false) :
    c.getFlags =
      Except.ok
        ((c.fetchApi HttpMethod.GET "/api/v1/flags" emptyOptions).getField
          "flags") := by
  simp [SearchALicious.getFlags, jsIn_eq_hasKey "error" _ hobj, h]

/-- On a primitive dispatcher result the membership test of getFlags
throws and the exception propagates. -/
theorem getFlags_throw (c : SearchALicious)
    (h : (c.fetchApi HttpMethod.GET "/api/v1/flags" emptyOptions).isObjectLike
      = false) :
    c.getFlags = Except.error "TypeError" := by
  simp [SearchALicious.getFlags, jsIn_eq_throw "error" _ h]

/-- On an object or array dispatcher result getApiHealth returns that
result unchanged, in both branches of its conditional. -/
theorem getApiHealth_ok (c : SearchALicious)
    (hobj : (c.fetchApi HttpMethod.GET "/health" emptyOptions).isObjectLike
      = true) :
    c.getApiHealth =
      Except.ok (c.fetchApi HttpMethod.GET "/health" emptyOptions) := by
  cases hk : (c.fetchApi HttpMethod.GET "/health" emptyOptions).hasKey "error" <;>
    simp [SearchALicious.getApiHealth, jsIn_eq_hasKey "error" _ hobj, hk]

/-- On a primitive dispatcher result the membership test of getApiHealth
throws and the exception propagates. -/
theorem getApiHealth_throw (c : SearchALicious)
    (h : (c.fetchApi HttpMethod.GET "/health" emptyOptions).isObjectLike
      = false) :
    c.getApiHealth = Except.error "TypeError" := by
  simp [SearchALicious.getApiHealth, jsIn_eq_throw "error" _ h]

/-- A transport whose four methods all resolve to the same outcome, used
to build concrete clients for evaluation. -/
def constRaw (r : Except String FetchResult) : RawClient :=
  { GET := fun _ _ => r
    POST := fun _ _ => r
    PUT := fun _ _ => r
    DELETE := fun _ _ => r }

/-- A client whose transport call rejects. -/
def throwClient : SearchALicious :=
  ⟨constRaw (Except.error "network failure")⟩

/-- A client answering 200 with a body that parses to JSON null (falsy). -/
def nullBodyClient : SearchALicious :=
  ⟨constRaw (Except.ok
    { response := { status := 200, body := some Json.null }, error := none })⟩

/-- A 200 response whose body parses to the number 42: a truthy JSON
primitive, so the dispatcher returns it as the success payload. -/
def resNum42 : FetchResult :=
  { response := { status := 200, body := some (Json.num 42) }, error := none }

/-- A client answering 200 with a body parsing to the number 42. -/
def num42Client : SearchALicious := ⟨constRaw (Except.ok resNum42)⟩

/-- The flags envelope of the spec scenario: an object whose flags field
holds one flag with id 1. -/
def flagsBody : Json :=
  Json.obj [("flags", Json.arr [Json.obj [("id", Json.num 1)]])]

/-- A 200 response whose body parses to the flags envelope. -/
def resFlags : FetchResult :=
  { response := { status := 200, body := some flagsBody }, error := none }

/-- A client answering 200 with the flags envelope. -/
def flagsClient : SearchALicious := ⟨constRaw (Except.ok resFlags)⟩

/-- Claim C1, counterexample: on a 200 response whose body parses to the
truthy primitive 42, the dispatcher returns that payload, and then the
membership test of each accessor throws a TypeError that propagates to
the caller: the accessor result is an exception, neither the parsed
payload nor a normalized error, contradicting the claim that every public
operation returns exactly one of the two shapes with no exception. -/
theorem accessor_throws_on_truthy_primitive_body :
    num42Client.fetchApi HttpMethod.GET "/api/v1/flags" emptyOptions =
      Json.num 42 ∧
    num42Client.getFlags = Except.error "TypeError" ∧
    num42Client.getApiHealth = Except.error "TypeError" :=
  ⟨rfl, rfl, rfl⟩

/-- Claim C1 as amended: the dispatcher fetchApi always returns, without
exception, either a normalized error object or the successfully parsed
truthy body unchanged. The accessors, however, guarantee the two-shape
result only when the dispatcher result is an object or array (which every
normalized error is): there getFlags returns the pass-through or the
extracted flags field (possibly undefined when the payload has neither
key) and getApiHealth returns the result unchanged; when a 2xx body
parses to a truthy JSON primitive, the membership test throws a TypeError
that propagates out of the accessor. -/
theorem fetchApi_normalized_accessors_throw_iff_nonobject :
    ∀ (c : SearchALicious) (m : HttpMethod) (p : String) (o : Json),
      (isNormalizedError (c.fetchApi m p o) = true ∨
        ∃ res data, methodsOf c.raw m p o = Except.ok res ∧
          res.response.ok = true ∧ res.response.body = some data ∧
          data.falsy = false ∧ c.fetchApi m p o = data) ∧
      ((c.fetchApi HttpMethod.GET "/api/v1/flags" emptyOptions).isObjectLike
          = true →
        c.getFlags = Except.ok
          (if (c.fetchApi HttpMethod.GET "/api/v1/flags" emptyOptions).hasKey
              "error"
           then some (c.fetchApi HttpMethod.GET "/api/v1/flags" emptyOptions)
           else (c.fetchApi HttpMethod.GET "/api/v1/flags" emptyOptions).getField
             "flags")) ∧
      ((c.fetchApi HttpMethod.GET "/api/v1/flags" emptyOptions).isObjectLike
          = false →
        c.getFlags = Except.error "TypeError") ∧
      ((c.fetchApi HttpMethod.GET "/health" emptyOptions).isObjectLike = true →
        c.getApiHealth =
          Except.ok (c.fetchApi HttpMethod.GET "/health" emptyOptions)) ∧
      ((c.fetchApi HttpMethod.GET "/health" emptyOptions).isObjectLike = false →
        c.getApiHealth = Except.error "TypeError") := by
  intro c m p o
  refine ⟨?_, ?_, getFlags_throw c, getApiHealth_ok c, getApiHealth_throw c⟩
  · unfold SearchALicious.fetchApi
    split
    · exact Or.inl (isNormalizedError_errJson _ _ _)
    · rename_i res heq
      split
      · split
        · exact Or.inl (isNormalizedError_errJson _ _ _)
        · split
          · exact Or.inl (isNormalizedError_errJson _ _ _)
          · exact Or.inl (isNormalizedError_errJson _ _ _)
      · rename_i hok
        split
        · exact Or.inl (isNormalizedError_errJson _ _ _)
        · rename_i data hbody
          split
          · exact Or.inl (isNormalizedError_errJson _ _ _)
          · rename_i hfalsy
            refine Or.inr ⟨res, data, heq, ?_, hbody, ?_, rfl⟩
            · simpa using hok
            · simpa using hfalsy
  · intro hobj
    cases hk : (c.fetchApi HttpMethod.GET "/api/v1/flags" emptyOptions).hasKey
      "error"
    · rw [getFlags_extract c hobj hk]
      simp [hk]
    · rw [getFlags_pass c hk]
      simp [hk]

/-- Witness for the amended claim C1: on a concrete client returning the
flags envelope (an object) the accessor returns without exception, and on
one returning the primitive 42 the health accessor throws. -/
theorem fetchApi_normalized_accessors_throw_iff_nonobject_witness :
    flagsClient.getFlags =
      Except.ok (some (Json.arr [Json.obj [("id", Json.num 1)]])) ∧
    num42Client.getApiHealth = Except.error "TypeError" := by
  constructor
  · exact (fetchApi_normalized_accessors_throw_iff_nonobject flagsClient
      HttpMethod.GET "/api/v1/flags" emptyOptions).2.1 rfl
  · exact (fetchApi_normalized_accessors_throw_iff_nonobject num42Client
      HttpMethod.GET "/health" emptyOptions).2.2.2.2 rfl

/-- Claim C2, counterexample: on a 2xx response whose parsed body is JSON
null (falsy), the dispatcher result is exactly the object with the outer
`error` wrapper key around statusCode 500 and the malformed-response
message; it carries the `error` key and satisfies the declared normalized
error shape, contradicting the claim that this branch omits the wrapper. -/
theorem malformed_branch_keeps_error_wrapper :
    nullBodyClient.fetchApi HttpMethod.GET "/api/v1/flags" emptyOptions =
      Json.obj [("error", Json.obj [("statusCode", Json.num 500),
        ("message", Json.str "Malformed API response")])] ∧
    (nullBodyClient.fetchApi HttpMethod.GET "/api/v1/flags" emptyOptions).hasKey
      "error" = true ∧
    isNormalizedError
      (nullBodyClient.fetchApi HttpMethod.GET "/api/v1/flags" emptyOptions) = true :=
  ⟨rfl, rfl, rfl⟩

/-- Claim C2 as amended: in the malformed-response branch (2xx response
with a falsy parsed body) the dispatcher returns the normalized error
with statusCode 500 and message "Malformed API response", including the
outer `error` wrapper key like every other error branch; the branch
differs from the others only in never carrying a details field. -/
theorem malformed_branch_normalized_with_wrapper
    (c : SearchALicious) (m : HttpMethod) (p : String) (o : Json)
    (res : FetchResult) (data : Json)
    (hres : methodsOf c.raw m p o = Except.ok res)
    (hok : res.response.ok = true)
    (hbody : res.response.body = some data)
    (hfalsy : data.falsy = true) :
    c.fetchApi m p o = errJson 500 "Malformed API response" none ∧
    (c.fetchApi m p o).hasKey "error" = true ∧
    isNormalizedError (c.fetchApi m p o) = true := by
  have h : c.fetchApi m p o = errJson 500 "Malformed API response" none := by
    simp [SearchALicious.fetchApi, hres, hok, hbody, hfalsy]
  exact ⟨h, h ▸ hasKey_errJson 500 "Malformed API response" none,
    h ▸ isNormalizedError_errJson 500 "Malformed API response" none⟩

/-- Witness for the amended claim C2, at a concrete client answering 200
with a JSON null body. -/
theorem malformed_branch_normalized_with_wrapper_witness :
    nullBodyClient.fetchApi HttpMethod.GET "/health" emptyOptions =
      errJson 500 "Malformed API response" none ∧
    (nullBodyClient.fetchApi HttpMethod.GET "/health" emptyOptions).hasKey
      "error" = true ∧
    isNormalizedError
      (nullBodyClient.fetchApi HttpMethod.GET "/health" emptyOptions) = true :=
  malformed_branch_normalized_with_wrapper nullBodyClient HttpMethod.GET "/health"
    emptyOptions { response := { status := 200, body := some Json.null }, error := none }
    Json.null rfl rfl rfl rfl

/-- Claim C3: on a 422 response whose error body carries a detail array,
the dispatcher returns statusCode 422, message "Validation error", and a
details array that is the entrywise msg projection of the detail array:
it has the same length and its i-th element is the i-th msg. -/
theorem validation_error_maps_detail_msgs
    (c : SearchALicious) (m : HttpMethod) (p : String) (o : Json)
    (res : FetchResult) (entries : List DetailEntry)
    (hres : methodsOf c.raw m p o = Except.ok res)
    (hstatus : res.response.status = 422)
    (herr : res.error = some { detail := some entries }) :
    c.fetchApi m p o =
      errJson 422 "Validation error"
        (some (Json.arr (entries.map (fun d => Json.str d.msg)))) ∧
    (entries.map (fun d => Json.str d.msg)).length = entries.length ∧
    ∀ i : Nat, (entries.map (fun d => Json.str d.msg)).get? i =
      (entries.get? i).map (fun d => Json.str d.msg) := by
  have hok : res.response.ok = false := by
    simp [HttpResponse.ok, hstatus]
  refine ⟨?_, by simp, fun i => by simp⟩
  simp [SearchALicious.fetchApi, hres, hok, hstatus, validationDetails, herr]

/-- The detail entry of the spec validation scenario. -/
def badIdEntry : DetailEntry :=
  { msg := "bad id", type := "value_error", loc := ["query", "id"] }

/-- A 422 response carrying the single detail entry above. -/
def res422 : FetchResult :=
  { response := { status := 422, body := none }
    error := some { detail := some [badIdEntry] } }

/-- A client answering 422 with one validation detail entry. -/
def client422 : SearchALicious := ⟨constRaw (Except.ok res422)⟩

/-- Witness for claim C3: the spec scenario, a 422 with a single detail
entry whose msg is "bad id". -/
theorem validation_error_maps_detail_msgs_witness :
    client422.fetchApi HttpMethod.GET "/api/v1/flags" emptyOptions =
      errJson 422 "Validation error" (some (Json.arr [Json.str "bad id"])) :=
  (validation_error_maps_detail_msgs client422 HttpMethod.GET "/api/v1/flags"
    emptyOptions res422 [badIdEntry] rfl rfl rfl).1

/-- Claim C4: on a non-2xx response whose status is not 422 and whose
body parses as JSON, the dispatcher returns the actual HTTP status, the
message "Error while requesting Nutripatrol API", and the parsed body as
details. -/
theorem upstream_error_carries_status_and_details
    (c : SearchALicious) (m : HttpMethod) (p : String) (o : Json)
    (res : FetchResult) (body : Json)
    (hres : methodsOf c.raw m p o = Except.ok res)
    (hok : res.response.ok = false)
    (h422 : res.response.status ≠ 422)
    (hbody : res.response.body = some body) :
    c.fetchApi m p o =
      errJson (res.response.status : Int)
        "Error while requesting Nutripatrol API" (some body) := by
  simp [SearchALicious.fetchApi, hres, hok, h422, hbody]

/-- The parsed body of the concrete 404 answer below. -/
def notFoundBody : Json := Json.obj [("detail", Json.str "Not found")]

/-- A 404 response whose body parses to an object. -/
def res404 : FetchResult :=
  { response := { status := 404, body := some notFoundBody }, error := none }

/-- A client answering 404 with a JSON error body. -/
def client404 : SearchALicious := ⟨constRaw (Except.ok res404)⟩

/-- Witness for claim C4: a 404 whose body is an object; the result keeps
status 404 and that body as details. -/
theorem upstream_error_carries_status_and_details_witness :
    client404.fetchApi HttpMethod.GET "/api/v1/flags" emptyOptions =
      errJson 404 "Error while requesting Nutripatrol API" (some notFoundBody) :=
  upstream_error_carries_status_and_details client404 HttpMethod.GET "/api/v1/flags"
    emptyOptions res404 notFoundBody rfl (by decide) (by decide) rfl

/-- Claim C5: when the transport call throws or rejects, the dispatcher
result is exactly the object wrapping statusCode 500 and the message
"An unexpected error occurred", with no details field. -/
theorem transport_throw_yields_unexpected_error
    (c : SearchALicious) (m : HttpMethod) (p : String) (o : Json) (e : String)
    (h : methodsOf c.raw m p o = Except.error e) :
    c.fetchApi m p o =
      Json.obj [("error", Json.obj [("statusCode", Json.num 500),
        ("message", Json.str "An unexpected error occurred")])] := by
  simp [SearchALicious.fetchApi, h, errJson]

/-- Witness for claim C5, at a concrete client whose call rejects. -/
theorem transport_throw_yields_unexpected_error_witness :
    throwClient.fetchApi HttpMethod.GET "/api/v1/flags" emptyOptions =
      Json.obj [("error", Json.obj [("statusCode", Json.num 500),
        ("message", Json.str "An unexpected error occurred")])] :=
  transport_throw_yields_unexpected_error throwClient HttpMethod.GET "/api/v1/flags"
    emptyOptions "network failure" rfl

/-- Claim C6: on a 2xx response whose body parses to a truthy JSON value,
the dispatcher returns exactly that parsed body. -/
theorem success_truthy_body_round_trip
    (c : SearchALicious) (m : HttpMethod) (p : String) (o : Json)
    (res : FetchResult) (data : Json)
    (hres : methodsOf c.raw m p o = Except.ok res)
    (hok : res.response.ok = true)
    (hbody : res.response.body = some data)
    (hfalsy : data.falsy = false) :
    c.fetchApi m p o = data := by
  simp [SearchALicious.fetchApi, hres, hok, hbody, hfalsy]

/-- Witness for claim C6: the flags envelope comes back unchanged. -/
theorem success_truthy_body_round_trip_witness :
    flagsClient.fetchApi HttpMethod.GET "/api/v1/flags" emptyOptions = flagsBody :=
  success_truthy_body_round_trip flagsClient HttpMethod.GET "/api/v1/flags"
    emptyOptions resFlags flagsBody rfl rfl rfl rfl

/-- Claim C7: on a 2xx response whose body parses to a falsy JSON value,
the dispatcher result, whatever the route, is the normalized error with
statusCode 500 and message "Malformed API response". -/
theorem empty_success_body_signals_malformed
    (c : SearchALicious) (m : HttpMethod) (p : String) (o : Json)
    (res : FetchResult) (data : Json)
    (hres : methodsOf c.raw m p o = Except.ok res)
    (hok : res.response.ok = true)
    (hbody : res.response.body = some data)
    (hfalsy : data.falsy = true) :
    c.fetchApi m p o = errJson 500 "Malformed API response" none := by
  simp [SearchALicious.fetchApi, hres, hok, hbody, hfalsy]

/-- A 200 response whose body parses to the number 0 (falsy). -/
def resZero : FetchResult :=
  { response := { status := 200, body := some (Json.num 0) }, error := none }

/-- A client answering 200 with a body parsing to 0. -/
def zeroBodyClient : SearchALicious := ⟨constRaw (Except.ok resZero)⟩

/-- Witness for claim C7, on the flags route with a falsy (0) body. -/
theorem empty_success_body_signals_malformed_witness :
    zeroBodyClient.fetchApi HttpMethod.GET "/api/v1/flags" emptyOptions =
      errJson 500 "Malformed API response" none :=
  empty_success_body_signals_malformed zeroBodyClient HttpMethod.GET "/api/v1/flags"
    emptyOptions resZero (Json.num 0) rfl rfl rfl rfl

/-- Claim C8: each accessor passes a dispatcher result carrying an error
key through unchanged (such a result is an object, so the membership test
cannot throw there); otherwise, on the object-shaped results the claim
describes (the flags envelope, the health object), getFlags reads the
flags field of the envelope and getApiHealth returns the whole payload
as-is, in both branches of its conditional, without exception. -/
theorem accessors_narrow_dispatcher_result :
    ∀ c : SearchALicious,
      ((c.fetchApi HttpMethod.GET "/api/v1/flags" emptyOptions).hasKey
          "error" = true →
        c.getFlags = Except.ok
          (some (c.fetchApi HttpMethod.GET "/api/v1/flags" emptyOptions))) ∧
      ((c.fetchApi HttpMethod.GET "/api/v1/flags" emptyOptions).isObjectLike
          = true →
        (c.fetchApi HttpMethod.GET "/api/v1/flags" emptyOptions).hasKey
          "error" = false →
        c.getFlags = Except.ok
          ((c.fetchApi HttpMethod.GET "/api/v1/flags" emptyOptions).getField
            "flags")) ∧
      ((c.fetchApi HttpMethod.GET "/health" emptyOptions).hasKey "error" = true →
        c.getApiHealth =
          Except.ok (c.fetchApi HttpMethod.GET "/health" emptyOptions)) ∧
      ((c.fetchApi HttpMethod.GET "/health" emptyOptions).isObjectLike = true →
        c.getApiHealth =
          Except.ok (c.fetchApi HttpMethod.GET "/health" emptyOptions)) := by
  intro c
  exact ⟨getFlags_pass c,
    fun hobj h => getFlags_extract c hobj h,
    fun h => getApiHealth_ok c (hasKey_isObjectLike _ "error" h),
    getApiHealth_ok c⟩

/-- Witness for claim C8: the spec scenario, a 2xx flags envelope with one
flag of id 1, where the accessor returns the extracted array; and a
client whose dispatcher result is a normalized error, which the health
accessor passes through unchanged. -/
theorem accessors_narrow_dispatcher_result_witness :
    (flagsClient.fetchApi HttpMethod.GET "/api/v1/flags" emptyOptions).isObjectLike
      = true ∧
    (flagsClient.fetchApi HttpMethod.GET "/api/v1/flags" emptyOptions).hasKey
      "error" = false ∧
    flagsClient.getFlags =
      Except.ok (some (Json.arr [Json.obj [("id", Json.num 1)]])) ∧
    throwClient.getApiHealth =
      Except.ok (errJson 500 "An unexpected error occurred" none) := by
  refine ⟨rfl, rfl, ?_, ?_⟩
  · have h := (accessors_narrow_dispatcher_result flagsClient).2.1 rfl rfl
    exact h
  · have h := (accessors_narrow_dispatcher_result throwClient).2.2.1 rfl
    exact h

/-- Claim C9: on a 2xx response whose truthy parsed body itself carries a
top-level error property, getFlags returns that body unchanged instead of
extracting its flags field: the accessor discriminates purely by the
presence of an error key. -/
theorem success_body_with_error_key_passes_through
    (c : SearchALicious) (res : FetchResult) (data : Json)
    (hres : methodsOf c.raw HttpMethod.GET "/api/v1/flags" emptyOptions =
      Except.ok res)
    (hok : res.response.ok = true)
    (hbody : res.response.body = some data)
    (hfalsy : data.falsy = false)
    (hkey : data.hasKey "error" = true) :
    c.getFlags = Except.ok (some data) := by
  have hfetch : c.fetchApi HttpMethod.GET "/api/v1/flags" emptyOptions = data := by
    simp [SearchALicious.fetchApi, hres, hok, hbody, hfalsy]
  have hobj := hasKey_isObjectLike data "error" hkey
  simp [SearchALicious.getFlags, hfetch, jsIn_eq_hasKey "error" data hobj, hkey]

/-- A 2xx body that is an object with both an error and a flags field. -/
def errorKeyBody : Json :=
  Json.obj [("error", Json.str "nope"), ("flags", Json.arr [])]

/-- A 200 response whose body parses to the object above. -/
def resErrorKey : FetchResult :=
  { response := { status := 200, body := some errorKeyBody }, error := none }

/-- A client answering 200 with a body that carries an error key. -/
def errorKeyClient : SearchALicious := ⟨constRaw (Except.ok resErrorKey)⟩

/-- Witness for claim C9: the body with an error key is passed through
whole; its flags field is not extracted. -/
theorem success_body_with_error_key_passes_through_witness :
    errorKeyClient.getFlags = Except.ok (some errorKeyBody) :=
  success_body_with_error_key_passes_through errorKeyClient resErrorKey
    errorKeyBody rfl rfl rfl rfl rfl

/-- Claim C10: on a non-2xx, non-422 response whose body parse throws,
the thrown parse lands in the catch-all: the dispatcher returns the
normalized error with statusCode 500 and the unexpected-error message,
not one carrying the actual HTTP status. -/
theorem unparseable_upstream_body_collapses_to_catch_all
    (c : SearchALicious) (m : HttpMethod) (p : String) (o : Json)
    (res : FetchResult)
    (hres : methodsOf c.raw m p o = Except.ok res)
    (hok : res.response.ok = false)
    (h422 : res.response.status ≠ 422)
    (hbody : res.response.body = none) :
    c.fetchApi m p o = errJson 500 "An unexpected error occurred" none := by
  simp [SearchALicious.fetchApi, hres, hok, h422, hbody]

/-- A 404 response whose body does not parse as JSON. -/
def resBadBody404 : FetchResult :=
  { response := { status := 404, body := none }, error := none }

/-- A client answering 404 with an unparseable body. -/
def badBody404Client : SearchALicious := ⟨constRaw (Except.ok resBadBody404)⟩

/-- Witness for claim C10: a 404 with an unparseable body collapses to the
catch-all 500 error rather than a 404 error. -/
theorem unparseable_upstream_body_collapses_to_catch_all_witness :
    badBody404Client.fetchApi HttpMethod.GET "/api/v1/flags" emptyOptions =
      errJson 500 "An unexpected error occurred" none :=
  unparseable_upstream_body_collapses_to_catch_all badBody404Client HttpMethod.GET
    "/api/v1/flags" emptyOptions resBadBody404 rfl (by decide) (by decide) rfl
